import Mathlib

/-!
Shallow embedding of `src/lbp_native/src/lib.rs` (a ListenBrainz scrobbler for
PowerAmp) and proofs about its scrobble-session state machine.

Modelling conventions:
* `Instant` values (Rust `std::time::Instant`) are `Nat` millisecond counts on a
  monotone clock; `Duration` values are `Nat` milliseconds.  Unix timestamps
  (`SystemTime` seconds) are `Nat` seconds.
* Rust `u64` arithmetic: ordinary subtraction `a - b` panics on underflow in
  debug builds and wraps modulo `2 ^ 64` in release builds; where this matters it
  is modelled explicitly (`u64CheckedSub`, `scrobble_duration_wrapping`);
  elsewhere values stay far from the bounds and `Nat` is used directly.
* Network submissions performed by the worker are recorded in an emitted list of
  `(listen_type, payload)` pairs instead of doing I/O; the transport's
  success/failure and the on-disk cache are modelled where a claim needs them
  (`import_cache`, `cache_enqueue`) with the outcome as an explicit parameter.
-/

namespace Lbp

/-- `additional_info` of the wire payload (struct `AdditionalInfo`). -/
structure AdditionalInfo where
  media_player : String := "PowerAmp"
  submission_client : String := "ListenBrainz PowerAmp"
  submission_client_version : String := "1.0.0"
  release_mbid : String := ""
  artist_mbids : List String := []
  recording_mbid : String := ""
  duration_ms : Nat := 0
deriving DecidableEq, Repr

/-- Struct `TrackMetadata` from the source. -/
structure TrackMetadata where
  additional_info : AdditionalInfo := {}
  artist_name : String := ""
  track_name : String := ""
  release_name : String := ""
deriving DecidableEq, Repr

/-- Struct `Payload`: `listened_at : Option<NonZeroU64>` is an optional positive
Unix timestamp in seconds. -/
structure Payload where
  listened_at : Option Nat := none
  track_metadata : TrackMetadata := {}
deriving DecidableEq, Repr

/-- `NonZeroU64::new`: `some n` for positive `n`, `none` for `0`. -/
def nonZeroU64New (n : Nat) : Option Nat :=
  if n = 0 then none else some n

/-- Enum `PowerampState`. -/
inductive PowerampState where
  | NoState
  | Stopped
  | Playing
  | Paused
deriving DecidableEq, Repr

/-- Enum `Event`.  `TrackChanged` carries the metadata, the starting position in
seconds (`jint`, non-negative here), the `Instant` captured when the JNI call
arrived, and the eligibility flag computed by the metadata-requirements check. -/
inductive Event where
  | TrackChanged (metadata : TrackMetadata) (pos : Nat) (now : Nat) (scrobble : Bool)
  | StateChanged (state : PowerampState)
  | SetToken (token : String)
deriving DecidableEq, Repr

/-- Struct `ListenbrainzData`: the worker's session state.  The cache directory
handle is modelled separately (`import_cache`, `cache_enqueue`). -/
structure ListenbrainzData where
  payload : Payload := {}
  scrobble : Bool := false
  token : String := ""
  scrobble_deadline : Nat := 0
  timeout : Bool := false
  paused : Bool := true
  pause_instant : Nat := 0
deriving DecidableEq, Repr

/-- Macro `scrobble_duration!($duration, $speed)` from the source:
`(if duration <= 40_000 { duration - 1_000 } else { u64::min(240_000, duration / 2) }) / speed`.
The division by the speed applies to the whole branch result.  `duration - 1000`
is `u64` subtraction; its underflow behaviour is modelled separately below. -/
def scrobble_duration (duration speed : Nat) : Nat :=
  (if duration ≤ 40000 then duration - 1000 else min 240000 (duration / 2)) / speed

/-- The wait that `handle_event` arms, generalized over the macro's speed
argument: the macro's result at that speed minus the starting position
(milliseconds).  The call site in `handle_event` instantiates `speed = 1`. -/
def armed_wait (duration posMs speed : Nat) : Nat :=
  scrobble_duration duration speed - posMs

/-- `u64` checked subtraction: `none` models the underflow that panics a debug
build. -/
def u64CheckedSub (a b : Nat) : Option Nat :=
  if a < b then none else some (a - b)

/-- `scrobble_duration!` with the short-track subtraction performed as checked
`u64` subtraction (`none` = debug-build panic on underflow). -/
def scrobble_duration_checked (duration speed : Nat) : Option Nat :=
  if duration ≤ 40000 then
    (u64CheckedSub duration 1000).map (· / speed)
  else
    some (min 240000 (duration / 2) / speed)

/-- `scrobble_duration!` with the short-track subtraction performed as wrapping
`u64` subtraction (release-build semantics). -/
def scrobble_duration_wrapping (duration speed : Nat) : Nat :=
  (if duration ≤ 40000 then (duration + (2 ^ 64 - 1000)) % 2 ^ 64
   else min 240000 (duration / 2)) / speed

/-- One network submission recorded by the model: the `listen_type` string sent
to `/1/submit-listens` together with the payload. -/
abbrev Submission := String × Payload

/-- Function `handle_event` from the source, as a state transformer that also
returns the list of submissions the call performs.  `now` is the `Instant` at
which the worker processes the event (`Instant::now()` in the `Paused` branch
and `pause_instant.elapsed()` in the `Playing` branch); the `TrackChanged`
branch uses the instant captured inside the event instead, exactly as the
source does. -/
def handle_event (event : Event) (now : Nat) (data : ListenbrainzData) :
    ListenbrainzData × List Submission :=
  match event with
  | .TrackChanged metadata pos evNow eligible =>
    let data := { data with payload := { data.payload with track_metadata := metadata } }
    let posMs := pos * 1000
    let data := { data with scrobble := eligible }
    let data := { data with timeout := data.scrobble && !data.paused }
    if data.scrobble then
      let sd := scrobble_duration metadata.additional_info.duration_ms 1
      if posMs < sd then
        let data := { data with
          scrobble_deadline := evNow + (sd - posMs),
          payload := { data.payload with listened_at := none } }
        (data, [("playing_now", data.payload)])
      else
        -- `data.scrobble = false; return;`
        ({ data with scrobble := false }, [])
    else
      (data, [])
  | .StateChanged state =>
    match state with
    | .Paused =>
      ({ data with pause_instant := now, timeout := false, paused := true }, [])
    | .Playing =>
      ({ data with
          scrobble_deadline := data.scrobble_deadline + (now - data.pause_instant),
          timeout := true, paused := false }, [])
    | .NoState | .Stopped => (data, [])
  | .SetToken token => ({ data with token := token }, [])

/-- The `Err(RecvTimeoutError::Timeout)` arm of the worker loop in
`init_thread`: the deadline elapsed with the queue empty.  If the track is still
marked eligible the payload is stamped with the current Unix time
(`NonZeroU64::new`) and submitted as a `"single"` listen; in every case
`scrobble` and `timeout` are then cleared. -/
def deadline_expiry (nowUnix : Nat) (data : ListenbrainzData) :
    ListenbrainzData × List Submission :=
  let (data, subs) :=
    if data.scrobble then
      let payload := { data.payload with listened_at := nonZeroU64New nowUnix }
      ({ data with payload := payload }, [("single", payload)])
    else
      (data, [])
  ({ data with scrobble := false, timeout := false }, subs)

/-- How the worker blocks at the top of its loop in `init_thread`: an untimed
`rx.recv()` or a `rx.recv_deadline(scrobble_deadline)`. -/
inductive WaitMode where
  | untimed
  | withDeadline (deadline : Nat)
deriving DecidableEq, Repr

/-- The wait chosen at the top of the worker loop: with `timeout` set the worker
uses `recv_deadline` only when `Instant::now() < scrobble_deadline`; if the
deadline has already elapsed it falls back to a plain `recv`, as does the
`timeout = false` case. -/
def wait_mode (data : ListenbrainzData) (now : Nat) : WaitMode :=
  if data.timeout then
    if data.scrobble_deadline ≤ now then .untimed
    else .withDeadline data.scrobble_deadline
  else .untimed

/-- One iteration of the worker loop.  `msg = some e` means the wait returned an
event; `msg = none` means it returned `RecvTimeoutError::Timeout`, which only a
`recv_deadline` wait can do — under an untimed `recv` the iteration never
completes without a message (`none` result: the worker stays blocked). -/
def worker_iteration (data : ListenbrainzData) (now nowUnix : Nat)
    (msg : Option Event) : Option (ListenbrainzData × List Submission) :=
  match msg with
  | some e => some (handle_event e now data)
  | none =>
    match wait_mode data now with
    | .untimed => none
    | .withDeadline _ => some (deadline_expiry nowUnix data)

/-- A completed worker wake-up: either an event was received (with the worker's
processing instant and the wall clock) or the armed deadline expired. -/
inductive Wake where
  | msg (e : Event) (now nowUnix : Nat)
  | expiry (now nowUnix : Nat)
deriving DecidableEq, Repr

/-- The state change and submissions of one completed wake-up. -/
def wake_step (w : Wake) (data : ListenbrainzData) : ListenbrainzData × List Submission :=
  match w with
  | .msg e now _ => handle_event e now data
  | .expiry _ nowUnix => deadline_expiry nowUnix data

/-- Run a sequence of completed wake-ups, concatenating the submissions. -/
def run_wakes (ws : List Wake) (data : ListenbrainzData) :
    ListenbrainzData × List Submission :=
  match ws with
  | [] => (data, [])
  | w :: rest =>
    let r := wake_step w data
    let r' := run_wakes rest r.1
    (r'.1, r.2 ++ r'.2)

/-- A wake-up that delivers a `TrackChanged` event. -/
def Wake.isTrackChanged : Wake → Prop
  | .msg (.TrackChanged _ _ _ _) _ _ => True
  | _ => False

instance (w : Wake) : Decidable w.isTrackChanged := by
  cases w with
  | msg e now nowUnix => cases e <;> simp [Wake.isTrackChanged] <;> infer_instance
  | expiry now nowUnix => simp [Wake.isTrackChanged]; infer_instance

/-- No submission in the list is a `"single"` listen. -/
def no_single (subs : List Submission) : Prop :=
  ∀ s ∈ subs, s.1 ≠ "single"

instance (subs : List Submission) : Decidable (no_single subs) := by
  unfold no_single; infer_instance

/-! ### Offline cache (`import_cache` and the enqueue path of `scrobble`)

The cache directory is modelled as the list of cached payload files (directory
iteration order).  The blocking POST's outcome is an explicit parameter. -/

/-- Result of one `import_cache` call: the request sent, if any, as
`(listen_type, batched payloads)`, and the directory contents afterwards. -/
structure FlushResult where
  request : Option (String × List Payload)
  cache : List Payload
deriving DecidableEq, Repr

/-- Function `import_cache` from the source, with all file I/O succeeding and
the POST outcome given by `transportOk`.  An empty directory sends nothing;
exactly one file is sent with `listen_type = "single"`, more with
`listen_type = "import"`, the files' payloads concatenated into the one request
array.  Only a successful POST deletes the files; on failure the function
returns early and the directory is untouched. -/
def import_cache (cache : List Payload) (transportOk : Bool) : FlushResult :=
  if cache.isEmpty then
    { request := none, cache := cache }
  else
    let listen_type := if cache.length = 1 then "single" else "import"
    if transportOk then
      { request := some (listen_type, cache), cache := [] }
    else
      { request := some (listen_type, cache), cache := cache }

/-- Outcome of a cache operation whose file I/O may fail: the source calls
`.unwrap()` on every such `Result`, so an I/O error panics (and kills) the
worker thread, modelled as `panicked`. -/
inductive WorkerOutcome (α : Type) where
  | ok (a : α)
  | panicked
deriving DecidableEq, Repr

/-- The offline-enqueue tail of function `scrobble` (run when the POST failed):
a payload carrying `listened_at` is written to `<listened_at>.json` via
`File::create(..).unwrap()` / `serde_json::to_writer(..).unwrap()` — a file
create/write error (`writeOk = false`) panics the worker.  An unstamped
("playing now") payload is dropped without touching the cache. -/
def cache_enqueue (payload : Payload) (writeOk : Bool) (cache : List Payload) :
    WorkerOutcome (List Payload) :=
  match payload.listened_at with
  | none => .ok cache
  | some _ => if writeOk then .ok (cache ++ [payload]) else .panicked

/-- `import_cache` with fallible file I/O: reading a cached file
(`File::open(..).unwrap()`, `readOk`) and deleting the batch after a successful
POST (`remove_file(..)` under `try_for_each(..).unwrap()`, `deleteOk`) both
panic the worker on error. -/
def import_cache_io (cache : List Payload) (readOk transportOk deleteOk : Bool) :
    WorkerOutcome FlushResult :=
  if cache.isEmpty then
    .ok { request := none, cache := cache }
  else if !readOk then
    .panicked
  else
    let listen_type := if cache.length = 1 then "single" else "import"
    if transportOk then
      if deleteOk then .ok { request := some (listen_type, cache), cache := [] }
      else .panicked
    else
      .ok { request := some (listen_type, cache), cache := cache }

/-! ### The process-wide session slot

`EVENT_LOOP_SENDER : Mutex<Option<Sender<Event>>>` holds either nothing or the
channel to the running worker.  A session is abstracted by the ordered list of
events delivered to its worker (the event that `init_thread` receives and
handles synchronously counts as delivered). -/

/-- A live session: the events delivered to its worker, oldest first. -/
structure Session where
  delivered : List Event
deriving DecidableEq, Repr

/-- The session slot guarded by `EVENT_LOOP_SENDER`. -/
abbrev Registry := Option Session

/-- Function `send_event`: forward to the existing worker, or call
`init_thread` — which spawns a brand-new worker that handles the event — when
the slot is empty. -/
def send_event (e : Event) (r : Registry) : Registry :=
  match r with
  | some s => some { delivered := s.delivered ++ [e] }
  | none => some { delivered := [e] }

/-- JNI entry `..._setToken`: sends `SetToken` only when a session exists
(`if let Some(tx) = ..`); with the slot empty it does nothing at all. -/
def setToken_cmd (token : String) (r : Registry) : Registry :=
  match r with
  | some s => some { delivered := s.delivered ++ [Event.SetToken token] }
  | none => r

/-- JNI entry `..._mStatusFunction`: `NoState`/`Stopped` clears the slot
(dropping the sender disconnects and terminates the worker); any other state is
sent as a `StateChanged` event via `send_event`. -/
def status_cmd (state : PowerampState) (r : Registry) : Registry :=
  match state with
  | .NoState | .Stopped => none
  | _ => send_event (.StateChanged state) r

/-- JNI entry `..._mTrackFunction`, after metadata resolution: emits
`TrackChanged` via `send_event`. -/
def track_cmd (metadata : TrackMetadata) (pos now : Nat) (scrobble : Bool)
    (r : Registry) : Registry :=
  send_event (.TrackChanged metadata pos now scrobble) r

/-! ### Concrete sample inputs used to instantiate the theorems -/

/-- Metadata of a 30-second track. -/
def meta30000 : TrackMetadata := { additional_info := { duration_ms := 30000 } }

/-- A session state in unpaused playback. -/
def stPlaying : ListenbrainzData := { paused := false }

/-- A session state whose deadline (at instant 100) is armed and whose track is
still eligible. -/
def stFired : ListenbrainzData :=
  { scrobble := true, timeout := true, scrobble_deadline := 100, paused := false }

/-- A sample unstamped payload. -/
def samplePayload : Payload := { track_metadata := meta30000 }

/-- A second, distinct sample payload. -/
def samplePayload2 : Payload :=
  { track_metadata := { artist_name := "a", track_name := "b" } }

/-- A payload stamped with a `listened_at` Unix timestamp. -/
def stampedPayload : Payload :=
  { listened_at := some 1700000000, track_metadata := meta30000 }

/-- A wake-up sequence containing no `TrackChanged` delivery (a resume, a
deadline expiry, a token update). -/
def wsNoTrack : List Wake :=
  [.msg (.StateChanged .Playing) 5 0, .expiry 6 7, .msg (.SetToken "t") 8 0]

/-! ### Helper lemmas -/

/-- `handle_event` never performs a `"single"` submission: the only submission
it can make is the `"playing_now"` notice of an eligible `TrackChanged`. -/
theorem handle_event_no_single (e : Event) (now : Nat) (d : ListenbrainzData) :
    no_single (handle_event e now d).2 := by
  cases e with
  | TrackChanged m pos evNow elig =>
    simp only [handle_event]
    split
    · split
      · simp [no_single]
      · simp [no_single]
    · simp [no_single]
  | StateChanged st => cases st <;> simp [handle_event, no_single]
  | SetToken t => simp [handle_event, no_single]

/-- A wake-up that does not deliver `TrackChanged`, started with the
eligibility flag clear, keeps it clear and submits nothing. -/
theorem wake_step_quiescent (w : Wake) (d : ListenbrainzData)
    (hw : ¬ w.isTrackChanged) (hd : d.scrobble = false) :
    (wake_step w d).1.scrobble = false ∧ (wake_step w d).2 = [] := by
  cases w with
  | msg e now nowUnix =>
    cases e with
    | TrackChanged m pos evNow elig => exact absurd trivial hw
    | StateChanged st => cases st <;> simp [wake_step, handle_event, hd]
    | SetToken t => simp [wake_step, handle_event, hd]
  | expiry now nowUnix => simp [wake_step, deadline_expiry, hd]

/-- Any sequence of wake-ups free of `TrackChanged`, started with the
eligibility flag clear, keeps it clear and submits nothing at all. -/
theorem run_wakes_quiescent (ws : List Wake) (d : ListenbrainzData)
    (hd : d.scrobble = false) (hw : ∀ w ∈ ws, ¬ w.isTrackChanged) :
    (run_wakes ws d).1.scrobble = false ∧ (run_wakes ws d).2 = [] := by
  induction ws generalizing d with
  | nil => simpa [run_wakes] using hd
  | cons w rest ih =>
    have h1 := wake_step_quiescent w d (hw w (by simp)) hd
    have h2 := ih (wake_step w d).1 h1.1 (fun x hx => hw x (by simp [hx]))
    simp [run_wakes, h1.2, h2.1, h2.2]

/-! ### Claim theorems -/

/-- C1: when the armed deadline expires with the event queue empty (the
`Timeout` arm of the worker loop) and the current track still eligible, the
worker stamps `listened_at` with the current Unix time, submits exactly one
`"single"` listen, and clears both the eligibility flag and the `timeout`
flag; afterwards no `"single"` submission occurs across any sequence of
wake-ups that delivers no further `TrackChanged` event. -/
theorem deadline_fires_once (d : ListenbrainzData) (nowUnix : Nat)
    (ws : List Wake) (helig : d.scrobble = true) (_harmed : d.timeout = true)
    (hnz : 0 < nowUnix) (hws : ∀ w ∈ ws, ¬ w.isTrackChanged) :
    (deadline_expiry nowUnix d).2 =
      [("single", { d.payload with listened_at := some nowUnix })] ∧
    (deadline_expiry nowUnix d).1.payload.listened_at = some nowUnix ∧
    (deadline_expiry nowUnix d).1.scrobble = false ∧
    (deadline_expiry nowUnix d).1.timeout = false ∧
    (run_wakes ws (deadline_expiry nowUnix d).1).2 = [] := by
  have hstamp : nonZeroU64New nowUnix = some nowUnix := by
    unfold nonZeroU64New
    rw [if_neg (Nat.pos_iff_ne_zero.mp hnz)]
  have hfired : (deadline_expiry nowUnix d).1.scrobble = false := by
    simp [deadline_expiry, helig]
  refine ⟨?_, ?_, hfired, ?_, ?_⟩
  · simp [deadline_expiry, helig, hstamp]
  · simp [deadline_expiry, helig, hstamp]
  · simp [deadline_expiry, helig]
  · exact (run_wakes_quiescent ws _ hfired hws).2

/-- Witness for C1 at a concrete state and wake-up sequence. -/
theorem deadline_fires_once_witness :
    stFired.scrobble = true ∧ stFired.timeout = true ∧ 0 < 1700000000 ∧
    (∀ w ∈ wsNoTrack, ¬ w.isTrackChanged) ∧
    (deadline_expiry 1700000000 stFired).2 =
      [("single", { stFired.payload with listened_at := some 1700000000 })] ∧
    (deadline_expiry 1700000000 stFired).1.scrobble = false ∧
    (run_wakes wsNoTrack (deadline_expiry 1700000000 stFired).1).2 = [] := by
  have h := deadline_fires_once stFired 1700000000 wsNoTrack rfl rfl
    (by decide) (by decide)
  exact ⟨rfl, rfl, by decide, by decide, h.1, h.2.2.1, h.2.2.2.2⟩

/-- C2: a `StateChanged(Paused)` processed at instant `t` followed by a
`StateChanged(Playing)` processed at instant `t + p` shifts the deadline
forward by exactly `p`, for every state and every pause length; and in the
concrete scenario (duration 30000 ms, position 0, `TrackChanged` at instant
1000) the armed deadline is `1000 + 29000`, and pausing at `+10 s` then
resuming at `+15 s` moves it to the original plus `5000` ms. -/
theorem pause_resume_shifts_deadline (d : ListenbrainzData) (t p : Nat) :
    ((handle_event (.StateChanged .Playing) (t + p)
        (handle_event (.StateChanged .Paused) t d).1).1.scrobble_deadline
      = d.scrobble_deadline + p) ∧
    ((handle_event (.TrackChanged meta30000 0 1000 true) 1000
        stPlaying).1.scrobble_deadline = 1000 + 29000) ∧
    ((handle_event (.StateChanged .Playing) 16000
        (handle_event (.StateChanged .Paused) 11000
          (handle_event (.TrackChanged meta30000 0 1000 true) 1000
            stPlaying).1).1).1.scrobble_deadline = (1000 + 29000) + 5000) := by
  refine ⟨?_, by decide, by decide⟩
  simp [handle_event]

/-- C5: an eligible `TrackChanged` whose starting position (in ms) already
reaches the threshold performs no submission, leaves the deadline field
untouched, and clears the eligibility flag for this occurrence. -/
theorem past_threshold_ineligible (m : TrackMetadata) (pos evNow hnow : Nat)
    (d : ListenbrainzData)
    (h : scrobble_duration m.additional_info.duration_ms 1 ≤ pos * 1000) :
    (handle_event (.TrackChanged m pos evNow true) hnow d).2 = [] ∧
    (handle_event (.TrackChanged m pos evNow true) hnow d).1.scrobble = false ∧
    (handle_event (.TrackChanged m pos evNow true) hnow d).1.scrobble_deadline
      = d.scrobble_deadline := by
  have hlt : ¬ (pos * 1000 < scrobble_duration m.additional_info.duration_ms 1) :=
    Nat.not_lt.mpr h
  refine ⟨?_, ?_, ?_⟩ <;> simp [handle_event, hlt]

/-- Witness for C5: a 30-second track reported at position 29 s
(29000 ms ≥ the 29000 ms threshold). -/
theorem past_threshold_ineligible_witness :
    scrobble_duration meta30000.additional_info.duration_ms 1 ≤ 29 * 1000 ∧
    (handle_event (.TrackChanged meta30000 29 500 true) 500 stPlaying).2 = [] ∧
    (handle_event (.TrackChanged meta30000 29 500 true) 500
      stPlaying).1.scrobble = false ∧
    (handle_event (.TrackChanged meta30000 29 500 true) 500
      stPlaying).1.scrobble_deadline = stPlaying.scrobble_deadline := by
  have h := past_threshold_ineligible meta30000 29 500 500 stPlaying (by decide)
  exact ⟨by decide, h.1, h.2.1, h.2.2⟩

/-- C3 counterexample: the code divides the threshold by the speed *before*
subtracting the starting position (`scrobble_duration!(d, speed) - pos`), not
after, so at speed 2, duration 100000 ms and position 10000 ms the armed wait
is 15000 ms while the claimed `(threshold - position) / speed` is 20000 ms;
in particular a 2x speed does not halve the remaining wait from a nonzero
position. -/
theorem speed_division_order_cex :
    armed_wait 100000 10000 2 = 15000 ∧
    (scrobble_duration 100000 1 - 10000) / 2 = 20000 ∧
    armed_wait 100000 10000 2 ≠ (scrobble_duration 100000 1 - 10000) / 2 := by
  refine ⟨by decide, by decide, by decide⟩

/-- C3 (amended): at speed 1 the threshold is `d - 1000` for `d ≤ 40000` and
`min 240000 (d / 2)` for `d > 40000`; the armed wait is the threshold *divided
by the speed multiplier* minus the starting position (so at speed 1 it is
`threshold - position`, and at speed 2 the wait from position 0 is halved);
and an eligible `TrackChanged` whose position is inside the window arms the
deadline at the event instant plus that speed-1 armed wait. -/
theorem threshold_and_armed_wait (dur posMs : Nat) :
    (1000 ≤ dur → dur ≤ 40000 → scrobble_duration dur 1 = dur - 1000) ∧
    (40000 < dur → scrobble_duration dur 1 = min 240000 (dur / 2)) ∧
    armed_wait dur posMs 1 = scrobble_duration dur 1 - posMs ∧
    armed_wait dur 0 2 = armed_wait dur 0 1 / 2 ∧
    (∀ (data : ListenbrainzData) (m : TrackMetadata) (pos evNow hnow : Nat),
      m.additional_info.duration_ms = dur →
      pos * 1000 < scrobble_duration dur 1 →
      (handle_event (.TrackChanged m pos evNow true) hnow data).1.scrobble_deadline
        = evNow + armed_wait dur (pos * 1000) 1) := by
  refine ⟨?_, ?_, rfl, ?_, ?_⟩
  · intro _ h2
    simp [scrobble_duration, if_pos h2]
  · intro h
    simp [scrobble_duration, if_neg (Nat.not_le.mpr h)]
  · simp [armed_wait, scrobble_duration, Nat.div_one]
  · intro data m pos evNow hnow hm hpos
    subst hm
    simp [handle_event, armed_wait, hpos]

/-- Witness for C3 (amended) at durations 30000 and 100000 ms, position 5 s. -/
theorem threshold_and_armed_wait_witness :
    (1000 ≤ 30000 ∧ 30000 ≤ 40000 ∧ scrobble_duration 30000 1 = 30000 - 1000) ∧
    (40000 < 100000 ∧ scrobble_duration 100000 1 = min 240000 (100000 / 2)) ∧
    armed_wait 30000 5000 1 = scrobble_duration 30000 1 - 5000 ∧
    armed_wait 30000 0 2 = armed_wait 30000 0 1 / 2 ∧
    meta30000.additional_info.duration_ms = 30000 ∧ 5 * 1000 < scrobble_duration 30000 1 ∧
    (handle_event (.TrackChanged meta30000 5 200 true) 200 stPlaying).1.scrobble_deadline
      = 200 + armed_wait 30000 (5 * 1000) 1 := by
  have h30 := threshold_and_armed_wait 30000 5000
  have h100 := threshold_and_armed_wait 100000 0
  exact ⟨⟨by decide, by decide, h30.1 (by decide) (by decide)⟩,
    ⟨by decide, h100.2.1 (by decide)⟩, h30.2.2.1, h30.2.2.2.1,
    rfl, by decide, h30.2.2.2.2 stPlaying meta30000 5 200 200 rfl (by decide)⟩

/-- C4 counterexample: the threshold is not monotone across the 40-second
boundary: `threshold 40000 = 39000` but `threshold 40002 = 20001`, so
`d1 = 40000 ≤ d2 = 40002` with `threshold d1 > threshold d2`. -/
theorem threshold_monotonicity_cex :
    40000 ≤ 40002 ∧ scrobble_duration 40000 1 = 39000 ∧
    scrobble_duration 40002 1 = 20001 ∧
    scrobble_duration 40002 1 < scrobble_duration 40000 1 := by
  refine ⟨by decide, by decide, by decide, by decide⟩

/-- C4 (amended): the threshold is monotone non-decreasing within each branch
of the rule — on durations up to 40000 ms and on durations above 40000 ms —
and is constant at 240000 once `d / 2` reaches the four-minute cap
(`d ≥ 480000`); across the 40-second boundary it drops. -/
theorem threshold_piecewise_monotone (d1 d2 : Nat) :
    (d1 ≤ d2 → d2 ≤ 40000 → scrobble_duration d1 1 ≤ scrobble_duration d2 1) ∧
    (40000 < d1 → d1 ≤ d2 → scrobble_duration d1 1 ≤ scrobble_duration d2 1) ∧
    (480000 ≤ d1 → scrobble_duration d1 1 = 240000) := by
  refine ⟨?_, ?_, ?_⟩
  · intro h12 h2
    simp only [scrobble_duration, if_pos (le_trans h12 h2), if_pos h2, Nat.div_one]
    omega
  · intro h1 h12
    have h2 : 40000 < d2 := lt_of_lt_of_le h1 h12
    simp only [scrobble_duration, if_neg (Nat.not_le.mpr h1),
      if_neg (Nat.not_le.mpr h2), Nat.div_one]
    exact min_le_min le_rfl (Nat.div_le_div_right h12)
  · intro h
    have h1 : ¬ d1 ≤ 40000 := by omega
    simp only [scrobble_duration, if_neg h1, Nat.div_one]
    have : 240000 ≤ d1 / 2 := by omega
    exact min_eq_left this

/-- Witness for C4 (amended) on each branch. -/
theorem threshold_piecewise_monotone_witness :
    (2000 ≤ 30000 ∧ 30000 ≤ 40000 ∧
      scrobble_duration 2000 1 ≤ scrobble_duration 30000 1) ∧
    (40000 < 50000 ∧ 50000 ≤ 60000 ∧
      scrobble_duration 50000 1 ≤ scrobble_duration 60000 1) ∧
    (480000 ≤ 500000 ∧ scrobble_duration 500000 1 = 240000) := by
  exact ⟨⟨by decide, by decide,
      (threshold_piecewise_monotone 2000 30000).1 (by decide) (by decide)⟩,
    ⟨by decide, by decide,
      (threshold_piecewise_monotone 50000 60000).2.1 (by decide) (by decide)⟩,
    ⟨by decide, (threshold_piecewise_monotone 500000 0).2.2 (by decide)⟩⟩

/-- C6: flushing the cache sends no request when the directory is empty, a
`"single"` request for exactly one entry, an `"import"` request carrying all
entries for more than one; a successful transport empties the directory and a
failed one leaves it untouched. -/
theorem import_cache_spec (cache : List Payload) (ok : Bool) :
    (cache = [] → import_cache cache ok = { request := none, cache := cache }) ∧
    (cache.length = 1 → (import_cache cache ok).request = some ("single", cache)) ∧
    (1 < cache.length → (import_cache cache ok).request = some ("import", cache)) ∧
    (cache ≠ [] → ok = true → (import_cache cache ok).cache = []) ∧
    (ok = false → (import_cache cache ok).cache = cache) := by
  refine ⟨?_, ?_, ?_, ?_, ?_⟩
  · intro h; subst h; simp [import_cache]
  · intro h
    have hne : cache.isEmpty = false := by
      cases cache with
      | nil => simp at h
      | cons a l => simp
    cases ok <;> simp [import_cache, hne, h]
  · intro h
    have hne : cache.isEmpty = false := by
      cases cache with
      | nil => simp at h
      | cons a l => simp
    have h1 : cache.length ≠ 1 := by omega
    cases ok <;> simp [import_cache, hne, h1]
  · intro h hok
    subst hok
    have hne : cache.isEmpty = false := by
      cases cache with
      | nil => exact absurd rfl h
      | cons a l => simp
    by_cases h1 : cache.length = 1 <;> simp [import_cache, hne, h1]
  · intro hok
    subst hok
    by_cases hne : cache.isEmpty <;> simp [import_cache, hne]

/-- Witness for C6 on an empty, a one-entry and a two-entry cache. -/
theorem import_cache_spec_witness :
    import_cache [] true = { request := none, cache := [] } ∧
    (import_cache [samplePayload] true).request = some ("single", [samplePayload]) ∧
    (import_cache [samplePayload, samplePayload2] false).request
      = some ("import", [samplePayload, samplePayload2]) ∧
    (import_cache [samplePayload, samplePayload2] true).cache = [] ∧
    (import_cache [samplePayload, samplePayload2] false).cache
      = [samplePayload, samplePayload2] := by
  exact ⟨(import_cache_spec [] true).1 rfl,
    (import_cache_spec [samplePayload] true).2.1 rfl,
    (import_cache_spec [samplePayload, samplePayload2] false).2.2.1 (by decide),
    (import_cache_spec [samplePayload, samplePayload2] true).2.2.2.1 (by simp) rfl,
    (import_cache_spec [samplePayload, samplePayload2] false).2.2.2.2 rfl⟩

/-- C7: contrary to the claim, a cache I/O failure crashes the worker thread:
the source unwraps every cache file create/write/read/delete `Result`, so a
failed enqueue write, a failed batch-file read, and a failed post-success
delete each panic the worker instead of continuing with a stale cache. -/
theorem cache_io_error_crashes_worker :
    cache_enqueue stampedPayload false [] = .panicked ∧
    import_cache_io [stampedPayload] false true true = .panicked ∧
    import_cache_io [stampedPayload, samplePayload2] true true false = .panicked := by
  refine ⟨rfl, rfl, rfl⟩

/-- C8 counterexample: after a `Stopped` teardown clears the session slot, the
`setToken` JNI entry does *not* begin a new session — it finds the slot empty
and silently does nothing, leaving no session at all. -/
theorem setToken_after_stop_cex :
    status_cmd .Stopped (some { delivered := [] }) = none ∧
    setToken_cmd "tok" (status_cmd .Stopped (some { delivered := [] })) = none := by
  refine ⟨rfl, rfl⟩

/-- C8 (amended): `Stopped`/`NoState` always clears the session slot; after
teardown a track command or a `Playing`/`Paused` state command begins a
brand-new session containing just that event, while `setToken` is silently
dropped (no error, no delivery, and no new session). -/
theorem post_teardown_commands (r : Registry) (tok : String)
    (m : TrackMetadata) (pos now : Nat) (elig : Bool) :
    status_cmd .Stopped r = none ∧
    status_cmd .NoState r = none ∧
    track_cmd m pos now elig none
      = some { delivered := [.TrackChanged m pos now elig] } ∧
    status_cmd .Playing none = some { delivered := [.StateChanged .Playing] } ∧
    status_cmd .Paused none = some { delivered := [.StateChanged .Paused] } ∧
    setToken_cmd tok none = none := by
  exact ⟨rfl, rfl, rfl, rfl, rfl, rfl⟩

/-- C9: the short-track branch `duration - 1000` is only well defined for
durations of at least 1000 ms: below that the `u64` subtraction underflows —
`none` (a debug-build panic) in the checked model, a wraparound to
`d + (2^64 - 1000)` in the release model — while for `d ≥ 1000` the checked
threshold agrees with the total one. -/
theorem short_track_underflow (d : Nat) :
    (d < 1000 → scrobble_duration_checked d 1 = none) ∧
    (d < 1000 → scrobble_duration_wrapping d 1 = d + (2 ^ 64 - 1000)) ∧
    (1000 ≤ d → scrobble_duration_checked d 1 = some (scrobble_duration d 1)) := by
  have hpow : (2 : Nat) ^ 64 = 18446744073709551616 := by norm_num
  refine ⟨?_, ?_, ?_⟩
  · intro h
    have h40 : d ≤ 40000 := by omega
    simp [scrobble_duration_checked, u64CheckedSub, if_pos h40, if_pos h]
  · intro h
    have h40 : d ≤ 40000 := by omega
    have hlt : d + (2 ^ 64 - 1000) < 2 ^ 64 := by omega
    unfold scrobble_duration_wrapping
    rw [if_pos h40, Nat.mod_eq_of_lt hlt, Nat.div_one]
  · intro h
    by_cases h40 : d ≤ 40000
    · have hns : ¬ d < 1000 := Nat.not_lt.mpr h
      simp [scrobble_duration_checked, scrobble_duration, u64CheckedSub,
        if_pos h40, if_neg hns]
    · simp [scrobble_duration_checked, scrobble_duration, if_neg h40]

/-- Witness for C9 at durations 500 and 30000 ms. -/
theorem short_track_underflow_witness :
    (500 < 1000 ∧ scrobble_duration_checked 500 1 = none ∧
      scrobble_duration_wrapping 500 1 = 500 + (2 ^ 64 - 1000)) ∧
    (1000 ≤ 30000 ∧
      scrobble_duration_checked 30000 1 = some (scrobble_duration 30000 1)) := by
  exact ⟨⟨by decide, (short_track_underflow 500).1 (by decide),
      (short_track_underflow 500).2.1 (by decide)⟩,
    ⟨by decide, (short_track_underflow 30000).2.2 (by decide)⟩⟩

/-- C10: when the worker wakes with the `timeout` flag set but the armed
deadline already elapsed, it performs an untimed blocking `recv`: the iteration
cannot complete without a message (so no deadline-driven `"single"` fires at
that wake), and any event that does arrive is handled by `handle_event`, which
never submits a `"single"` — only a later event can change the state. -/
theorem elapsed_deadline_blocks (d : ListenbrainzData) (now nowUnix : Nat)
    (ht : d.timeout = true) (hd : d.scrobble_deadline ≤ now) :
    wait_mode d now = .untimed ∧
    worker_iteration d now nowUnix none = none ∧
    (∀ e : Event,
      worker_iteration d now nowUnix (some e) = some (handle_event e now d) ∧
      no_single (handle_event e now d).2) := by
  have hm : wait_mode d now = .untimed := by
    simp [wait_mode, ht, hd]
  refine ⟨hm, ?_, fun e => ⟨rfl, handle_event_no_single e now d⟩⟩
  simp [worker_iteration, hm]

/-- Witness for C10: deadline 100 already elapsed at instant 200. -/
theorem elapsed_deadline_blocks_witness :
    stFired.timeout = true ∧ stFired.scrobble_deadline ≤ 200 ∧
    wait_mode stFired 200 = .untimed ∧
    worker_iteration stFired 200 0 none = none ∧
    worker_iteration stFired 200 0 (some (.SetToken "t"))
      = some (handle_event (.SetToken "t") 200 stFired) ∧
    no_single (handle_event (.SetToken "t") 200 stFired).2 := by
  have h := elapsed_deadline_blocks stFired 200 0 rfl (by decide)
  exact ⟨rfl, by decide, h.1, h.2.1, (h.2.2 (.SetToken "t")).1, (h.2.2 (.SetToken "t")).2⟩

end Lbp
